import Mathlib

/-!
# Verification of the EvalAI analytics views

Shallow embedding of `src/apps/analytics/views.py`: the read-only analytics
endpoints of a competition platform (participant counts, submission counts in
a time window, last-submission timestamps, per-phase aggregate summaries).

The relational store is embedded as lists of records (`Database`); Django ORM
filters become list filters, `order_by('-submitted_at')` becomes an insertion
sort descending on `submitted_at`, and `values_list('id', flat=True)` becomes
a `map (·.id)`.  Timestamps are integers (seconds); Python's
`datetime.date()` truncation becomes truncation to a multiple of 86400.
An HTTP response is `ApiResponse`: a 200 body, a non-2xx error with status
and message, or `crash` for an unhandled Python exception (e.g. `IndexError`
from `[0]` on an empty queryset).

Helpers from modules outside the observed source (`get_challenge_model`,
`get_challenge_phase_model`, the two analysis serializers) are modelled from
the spec; their doc comments say so.
-/

namespace Analytics

/-- A challenge: identifier and the identifiers of its participant teams
(the `participant_teams` many-to-many relation used by the views). -/
structure Challenge where
  id : Nat
  participant_teams : List Nat
deriving DecidableEq, Repr

/-- A challenge phase: identifier and parent challenge identifier
(the `challengephase_set` reverse foreign key). -/
structure ChallengePhase where
  id : Nat
  challenge : Nat
deriving DecidableEq, Repr

/-- A participant record: identifier and the team it belongs to. -/
structure Participant where
  id : Nat
  team : Nat
deriving DecidableEq, Repr

/-- A submission record: owning phase, submitting team, creating user and the
two timestamps (`created_at`, `submitted_at`), as integer seconds. -/
structure Submission where
  id : Nat
  challenge_phase : Nat
  participant_team : Nat
  created_by : Nat
  created_at : Int
  submitted_at : Int
deriving DecidableEq, Repr

/-- The read-only relational store the views query. -/
structure Database where
  challenges : List Challenge
  phases : List ChallengePhase
  participants : List Participant
  submissions : List Submission
deriving Repr

/-- Outcome of a view: 200 with a body, a non-2xx error response carrying the
HTTP status and the `error` message, or an unhandled exception (crash). -/
inductive ApiResponse (α : Type) where
  | ok (body : α)
  | error (status : Nat) (msg : String)
  | crash
deriving DecidableEq, Repr

/-- Python's `str.lower()` on the ASCII tokens the views compare against. -/
def strLower (s : String) : String := String.mk (s.data.map Char.toLower)

/-- Number of seconds in a day; `timedelta(days=k)` is `k * 86400`. -/
def secondsPerDay : Int := 86400

/-- Python's `datetime.date()` applied to a UTC timestamp, i.e. truncation to
the start of the UTC day (a date is represented by its midnight timestamp,
which is how Django compares `submitted_at__gte=<date>`). -/
def toDate (t : Int) : Int := t - t % secondsPerDay

/-- Modelled from the spec: `challenges.utils.get_challenge_model` is not in
the observed source; per the spec the operations "fail with `NotFound` if
challenge_id does not resolve", so it is a primary-key lookup that the views
turn into a 404 when it misses. -/
def get_challenge_model (db : Database) (pk : Nat) : Option Challenge :=
  db.challenges.find? (fun c => c.id == pk)

/-- Modelled from the spec: `challenges.utils.get_challenge_phase_model` is
not in the observed source; as for challenges, a primary-key lookup that the
views turn into a 404 when it misses. -/
def get_challenge_phase_model (db : Database) (pk : Nat) : Option ChallengePhase :=
  db.phases.find? (fun p => p.id == pk)

/-- `challenge.challengephase_set.all().values_list('id', flat=True)`: the
identifiers of the phases whose parent is this challenge. -/
def challengePhaseIds (db : Database) (challenge : Challenge) : List Nat :=
  (db.phases.filter (fun p => p.challenge == challenge.id)).map (·.id)

/-- The accepted `duration` tokens of `get_submission_count`. -/
def validDurations : List String := ["all", "daily", "weekly", "monthly"]

/-- The `since_date` computed by `get_submission_count`: `None` for `all`,
today's date for `daily`, the date of now minus 7 days for `weekly`, the date
of now minus 30 days for `monthly`. -/
def sinceDate (now : Int) (duration : String) : Option Int :=
  if strLower duration == "daily" then some (toDate now)
  else if strLower duration == "weekly" then some (toDate (now - 7 * secondsPerDay))
  else if strLower duration == "monthly" then some (toDate (now - 30 * secondsPerDay))
  else none

/-- The filter `q_params` of `get_submission_count`: phase id in the
challenge's phase-id list, and `submitted_at__gte=since_date` when a
`since_date` was set. -/
def submissionCounted (phase_ids : List Nat) (since : Option Int) (s : Submission) : Bool :=
  phase_ids.contains s.challenge_phase &&
    (match since with
     | none => true
     | some d => decide (d ≤ s.submitted_at))

/-- `get_submission_count(request, challenge_pk, duration)`: 406 for a
duration token outside the accepted set (checked case-insensitively and
before the challenge is resolved), otherwise the count of the challenge's
submissions at or after the cutoff. -/
def get_submission_count (db : Database) (now : Int) (challenge_pk : Nat)
    (duration : String) : ApiResponse Nat :=
  if validDurations.contains (strLower duration) then
    match get_challenge_model db challenge_pk with
    | none => .error 404 "Challenge does not exist"
    | some challenge =>
      let ids := challengePhaseIds db challenge
      let since := sinceDate now duration
      .ok (db.submissions.filter (submissionCounted ids since)).length
  else
    .error 406 "Wrong URL pattern!"

/-- `get_participant_count(request, challenge_pk)`: the count of Participant
rows whose team is in the challenge's participant-team set
(`Participant.objects.filter(team__in=participant_teams).count()`). -/
def get_participant_count (db : Database) (challenge_pk : Nat) : ApiResponse Nat :=
  match get_challenge_model db challenge_pk with
  | none => .error 404 "Challenge does not exist"
  | some challenge =>
    .ok (db.participants.filter
          (fun p => challenge.participant_teams.contains p.team)).length

/-- The ORM join `challenge_phase__challenge=challenge`: the submission's
phase row (primary-key lookup on its `challenge_phase` foreign key) exists and
belongs to the given challenge. -/
def phaseInChallenge (db : Database) (cid : Nat) (s : Submission) : Bool :=
  match db.phases.find? (fun p => p.id == s.challenge_phase) with
  | some p => p.challenge == cid
  | none => false

/-- The filter of `get_last_submission_time` for `submission_by == 'user'`:
`created_by=request.user.pk, challenge_phase=challenge_phase,
challenge_phase__challenge=challenge`. -/
def userPhaseSubmission (db : Database) (cid phase_id user_pk : Nat)
    (s : Submission) : Bool :=
  s.created_by == user_pk && s.challenge_phase == phase_id &&
    phaseInChallenge db cid s

/-- Insert a submission into a list already sorted by `submitted_at`
descending, keeping it sorted. -/
def insertDesc (s : Submission) : List Submission → List Submission
  | [] => [s]
  | t :: ts =>
    if t.submitted_at ≤ s.submitted_at then s :: t :: ts
    else t :: insertDesc s ts

/-- The ORM `order_by('-submitted_at')`: sort by `submitted_at` descending. -/
def orderBySubmittedAtDesc : List Submission → List Submission
  | [] => []
  | s :: ss => insertDesc s (orderBySubmittedAtDesc ss)

/-- `get_last_submission_time(request, challenge_pk, challenge_phase_pk,
submission_by)`: for `submission_by == 'user'`, order the caller's submissions
in the phase by `submitted_at` descending and take `[0].created_at` — which
raises an unhandled `IndexError` (modelled as `crash`) when the queryset is
empty; any other `submission_by` is a 404 "Page not found!". -/
def get_last_submission_time (db : Database) (challenge_pk challenge_phase_pk : Nat)
    (submission_by : String) (user_pk : Nat) : ApiResponse Int :=
  match get_challenge_model db challenge_pk with
  | none => .error 404 "Challenge does not exist"
  | some challenge =>
    match get_challenge_phase_model db challenge_phase_pk with
    | none => .error 404 "Challenge phase does not exist"
    | some challenge_phase =>
      if submission_by == "user" then
        let last_submitted_at := db.submissions.filter
          (userPhaseSubmission db challenge.id challenge_phase.id user_pk)
        match orderBySubmittedAtDesc last_submitted_at with
        | [] => .crash
        | s :: _ => .ok s.created_at
      else
        .error 404 "Page not found!"

/-- A body row of the per-phase submission analysis. -/
structure PhaseAnalysisRow where
  submission_count : Nat
  participant_team_count : Nat
deriving DecidableEq, Repr

/-- A body row of the last-submission-datetime analysis: last submission
timestamp within the phase and within the whole challenge. -/
structure LastAnalysisRow where
  last_submitted_at : Int
  challenge_last_submitted_at : Int
deriving DecidableEq, Repr

/-- The serialized response body of the two analysis views: either the first
row of the aggregation (`serializer.data[0]`) or the whole — possibly
empty — row list (`serializer.data`). -/
inductive AnalysisBody (ρ : Type) where
  | single (r : ρ)
  | rows (rs : List ρ)
deriving DecidableEq, Repr

/-- The filter of the two analysis views:
`challenge_phase__challenge=challenge, challenge_phase=challenge_phase`. -/
def phaseSubmissionMatch (db : Database) (cid phase_id : Nat) (s : Submission) : Bool :=
  phaseInChallenge db cid s && s.challenge_phase == phase_id

/-- Modelled from the spec: `ChallengePhaseSubmissionAnalysisSerializer`
(`src/apps/analytics/serializers.py` is not in the observed source).  Per the
spec, each row carries `submission_count` = count of matching Submissions and
`participant_team_count` = count of distinct teams among matching submitters;
a `many=True` serializer yields one row per matching submission. -/
def challengePhaseSubmissionAnalysisData (matching : List Submission) :
    List PhaseAnalysisRow :=
  matching.map (fun _ =>
    { submission_count := matching.length
      participant_team_count := (matching.map (·.participant_team)).dedup.length })

/-- `get_challenge_phase_submission_analysis(request, challenge_pk,
challenge_phase_pk)`: serialize the matching submissions; if the serialized
data is non-empty return its first row, otherwise return the (empty) data
itself. -/
def get_challenge_phase_submission_analysis (db : Database)
    (challenge_pk challenge_phase_pk : Nat) : ApiResponse (AnalysisBody PhaseAnalysisRow) :=
  match get_challenge_model db challenge_pk with
  | none => .error 404 "Challenge does not exist"
  | some challenge =>
    match get_challenge_phase_model db challenge_phase_pk with
    | none => .error 404 "Challenge phase does not exist"
    | some challenge_phase =>
      let submissions := db.submissions.filter
        (phaseSubmissionMatch db challenge.id challenge_phase.id)
      match challengePhaseSubmissionAnalysisData submissions with
      | [] => .ok (.rows [])
      | r :: _ => .ok (.single r)

/-- Largest `submitted_at` among a list of submissions (0 when empty; rows
are only built from non-empty match lists). -/
def maxSubmittedAt (l : List Submission) : Int :=
  (l.map (·.submitted_at)).foldr max 0

/-- Modelled from the spec: `LastSubmissionDateTimeAnalysisSerializer`
(`src/apps/analytics/serializers.py` is not in the observed source).  Per the
spec, each row carries the last submission timestamp within the phase and
within the whole challenge; a `many=True` serializer yields one row per
matching submission. -/
def lastSubmissionAnalysisData (db : Database) (cid : Nat)
    (matching : List Submission) : List LastAnalysisRow :=
  matching.map (fun _ =>
    { last_submitted_at := maxSubmittedAt matching
      challenge_last_submitted_at :=
        maxSubmittedAt (db.submissions.filter (phaseInChallenge db cid)) })

/-- `get_last_submission_datetime_analysis(request, challenge_pk,
challenge_phase_pk)`: same filter and first-row-or-empty shape as the
per-phase submission analysis. -/
def get_last_submission_datetime_analysis (db : Database)
    (challenge_pk challenge_phase_pk : Nat) : ApiResponse (AnalysisBody LastAnalysisRow) :=
  match get_challenge_model db challenge_pk with
  | none => .error 404 "Challenge does not exist"
  | some challenge =>
    match get_challenge_phase_model db challenge_phase_pk with
    | none => .error 404 "Challenge phase does not exist"
    | some challenge_phase =>
      let submissions := db.submissions.filter
        (phaseSubmissionMatch db challenge.id challenge_phase.id)
      match lastSubmissionAnalysisData db challenge.id submissions with
      | [] => .ok (.rows [])
      | r :: _ => .ok (.single r)

/-! ### Concrete instances used by witnesses and counterexamples -/

/-- Challenge 1 with participant teams 10 and 11. -/
def exChallenge : Challenge := ⟨1, [10, 11]⟩

/-- Phase 1, belonging to challenge 1. -/
def exPhase : ChallengePhase := ⟨1, 1⟩

/-- A second challenge, id 2, with no teams. -/
def otherChallenge : Challenge := ⟨2, []⟩

/-- Phase 2, belonging to challenge 2. -/
def otherPhase : ChallengePhase := ⟨2, 2⟩

/-- A submission by user 7 (team 10) in phase 1, created at 100, submitted at 200. -/
def exSub : Submission := ⟨1, 1, 10, 7, 100, 200⟩

/-- A submission by user 7 in phase 2 — a phase of challenge 2, not 1. -/
def foreignSub : Submission := ⟨2, 2, 20, 7, 100, 200⟩

/-- Challenge 1 with phase 1 and no submissions at all. -/
def dbEmpty : Database := ⟨[exChallenge], [exPhase], [], []⟩

/-- Challenge 1 with phase 1, two participants (one on team 10, one on the
unrelated team 99) and one submission. -/
def dbOne : Database := ⟨[exChallenge], [exPhase], [⟨1, 10⟩, ⟨2, 99⟩], [exSub]⟩

/-- Two challenges with one phase and one submission each. -/
def dbTwo : Database :=
  ⟨[exChallenge, otherChallenge], [exPhase, otherPhase], [], [exSub, foreignSub]⟩

/-- A store with no challenges at all. -/
def dbNone : Database := ⟨[], [], [], []⟩

/-! ### Helper lemmas -/

/-- Truncating to the start of the day never moves a timestamp forward. -/
lemma toDate_le_self (t : Int) : toDate t ≤ t := by
  unfold toDate secondsPerDay
  omega

/-- Day truncation is monotone. -/
lemma toDate_mono {a b : Int} (h : a ≤ b) : toDate a ≤ toDate b := by
  unfold toDate secondsPerDay
  omega

/-- Filtering with a pointwise-weaker predicate keeps at least as many
elements. -/
lemma length_filter_mono {α : Type} {p q : α → Bool} (l : List α)
    (h : ∀ x ∈ l, p x = true → q x = true) :
    (l.filter p).length ≤ (l.filter q).length := by
  simpa [List.countP_eq_length_filter] using List.countP_mono_left h

/-- A submission counted against a later cutoff is counted against an earlier
one. -/
lemma submissionCounted_mono_cutoff {ids : List Nat} {d1 d2 : Int} (h : d1 ≤ d2)
    {s : Submission} (hs : submissionCounted ids (some d2) s = true) :
    submissionCounted ids (some d1) s = true := by
  unfold submissionCounted at hs ⊢
  simp only [Bool.and_eq_true, decide_eq_true_eq] at hs ⊢
  exact ⟨hs.1, le_trans h hs.2⟩

/-- A submission counted against any cutoff is counted with no cutoff. -/
lemma submissionCounted_none_of_some {ids : List Nat} {d : Int}
    {s : Submission} (hs : submissionCounted ids (some d) s = true) :
    submissionCounted ids none s = true := by
  unfold submissionCounted at hs ⊢
  simp only [Bool.and_eq_true] at hs ⊢
  exact ⟨hs.1, trivial⟩

/-- Inserting into a sorted-descending list never yields the empty list. -/
lemma insertDesc_ne_nil (s : Submission) (l : List Submission) :
    insertDesc s l ≠ [] := by
  cases l with
  | nil => simp [insertDesc]
  | cons t ts =>
    unfold insertDesc
    split <;> simp

/-- Membership in an `insertDesc` result. -/
lemma mem_insertDesc {x s : Submission} {l : List Submission} :
    x ∈ insertDesc s l ↔ x = s ∨ x ∈ l := by
  induction l with
  | nil => simp [insertDesc]
  | cons t ts ih =>
    unfold insertDesc
    split
    · simp [List.mem_cons]
    · simp only [List.mem_cons, ih]
      tauto

/-- Sorting yields the empty list exactly on the empty list. -/
lemma orderBySubmittedAtDesc_eq_nil {l : List Submission} :
    orderBySubmittedAtDesc l = [] ↔ l = [] := by
  cases l with
  | nil => simp [orderBySubmittedAtDesc]
  | cons s ss =>
    simp [orderBySubmittedAtDesc, insertDesc_ne_nil]

/-- The head of the descending sort is a member of the input with maximal
`submitted_at`. -/
lemma orderBySubmittedAtDesc_head_max {l rest : List Submission} {s : Submission}
    (h : orderBySubmittedAtDesc l = s :: rest) :
    s ∈ l ∧ ∀ t ∈ l, t.submitted_at ≤ s.submitted_at := by
  induction l generalizing s rest with
  | nil => simp [orderBySubmittedAtDesc] at h
  | cons x xs ih =>
    rw [orderBySubmittedAtDesc] at h
    rcases hxs : orderBySubmittedAtDesc xs with _ | ⟨y, ys⟩
    · have hnil : xs = [] := orderBySubmittedAtDesc_eq_nil.mp hxs
      rw [hxs] at h
      unfold insertDesc at h
      obtain ⟨hx, -⟩ := List.cons.inj h
      subst hnil
      subst hx
      simp
    · obtain ⟨hy, hymax⟩ := ih hxs
      rw [hxs] at h
      rw [insertDesc] at h
      split at h
      · rename_i hle
        obtain ⟨hx, -⟩ := List.cons.inj h
        subst hx
        refine ⟨List.mem_cons_self _ _, ?_⟩
        intro t ht
        rcases List.mem_cons.mp ht with rfl | ht
        · exact le_refl _
        · exact le_trans (hymax t ht) hle
      · rename_i hlt
        obtain ⟨hx, -⟩ := List.cons.inj h
        subst hx
        refine ⟨List.mem_cons_of_mem _ hy, ?_⟩
        intro t ht
        rcases List.mem_cons.mp ht with rfl | ht
        · exact le_of_not_le hlt
        · exact hymax t ht

/-- On a valid duration token and a resolving challenge,
`get_submission_count` is the length of the filtered submission list. -/
lemma get_submission_count_valid (db : Database) (now : Int) (cpk : Nat)
    (c : Challenge) (duration : String)
    (h : get_challenge_model db cpk = some c)
    (hv : validDurations.contains (strLower duration) = true) :
    get_submission_count db now cpk duration =
      .ok (db.submissions.filter
        (submissionCounted (challengePhaseIds db c) (sinceDate now duration))).length := by
  unfold get_submission_count
  rw [if_pos hv, h]

/-- `all` sets no cutoff. -/
lemma sinceDate_all (now : Int) : sinceDate now "all" = none := rfl

/-- `daily` cuts off at the start of the current day. -/
lemma sinceDate_daily (now : Int) : sinceDate now "daily" = some (toDate now) := rfl

/-- `weekly` cuts off at the date of now minus 7 days. -/
lemma sinceDate_weekly (now : Int) :
    sinceDate now "weekly" = some (toDate (now - 7 * secondsPerDay)) := rfl

/-- `monthly` cuts off at the date of now minus 30 days. -/
lemma sinceDate_monthly (now : Int) :
    sinceDate now "monthly" = some (toDate (now - 30 * secondsPerDay)) := rfl

/-- With no cutoff, counting filters on phase membership alone. -/
lemma filter_submissionCounted_none (ids : List Nat) (l : List Submission) :
    l.filter (submissionCounted ids none) =
      l.filter (fun s => ids.contains s.challenge_phase) :=
  List.filter_congr (fun s _ => by simp [submissionCounted])

/-- With a cutoff, counting filters on phase membership and
`submitted_at ≥ cutoff`. -/
lemma filter_submissionCounted_some (ids : List Nat) (d : Int) (l : List Submission) :
    l.filter (submissionCounted ids (some d)) =
      l.filter (fun s =>
        ids.contains s.challenge_phase && decide (d ≤ s.submitted_at)) :=
  List.filter_congr (fun s _ => by simp [submissionCounted])

/-! ### Theorems for the claims -/

/-- C4: `CountSubmissions(challenge_id, window)` counts exactly the
submissions whose phase is in the challenge's phase set and whose
`submitted_at` is at or after the cutoff; the cutoff is absent for `all`, the
start of the current UTC day for `daily`, the date of now minus 7 days for
`weekly`, and the date of now minus 30 days for `monthly` — the lower bound is
day-truncated, the submission timestamp is compared at full precision. -/
theorem C4_submission_count_window_cutoffs (db : Database) (now : Int)
    (cpk : Nat) (c : Challenge) (h : get_challenge_model db cpk = some c) :
    get_submission_count db now cpk "all" =
      .ok (db.submissions.filter (fun s =>
        (challengePhaseIds db c).contains s.challenge_phase)).length ∧
    get_submission_count db now cpk "daily" =
      .ok (db.submissions.filter (fun s =>
        (challengePhaseIds db c).contains s.challenge_phase &&
          decide (toDate now ≤ s.submitted_at))).length ∧
    get_submission_count db now cpk "weekly" =
      .ok (db.submissions.filter (fun s =>
        (challengePhaseIds db c).contains s.challenge_phase &&
          decide (toDate (now - 7 * secondsPerDay) ≤ s.submitted_at))).length ∧
    get_submission_count db now cpk "monthly" =
      .ok (db.submissions.filter (fun s =>
        (challengePhaseIds db c).contains s.challenge_phase &&
          decide (toDate (now - 30 * secondsPerDay) ≤ s.submitted_at))).length := by
  refine ⟨?_, ?_, ?_, ?_⟩
  · rw [get_submission_count_valid db now cpk c "all" h (by decide),
      sinceDate_all, filter_submissionCounted_none]
  · rw [get_submission_count_valid db now cpk c "daily" h (by decide),
      sinceDate_daily, filter_submissionCounted_some]
  · rw [get_submission_count_valid db now cpk c "weekly" h (by decide),
      sinceDate_weekly, filter_submissionCounted_some]
  · rw [get_submission_count_valid db now cpk c "monthly" h (by decide),
      sinceDate_monthly, filter_submissionCounted_some]

/-- Witness for C4 at a concrete store and clock. -/
theorem C4_submission_count_window_cutoffs_witness :
    get_submission_count dbOne 250 1 "all" =
      .ok (dbOne.submissions.filter (fun s =>
        (challengePhaseIds dbOne exChallenge).contains s.challenge_phase)).length ∧
    get_submission_count dbOne 250 1 "daily" =
      .ok (dbOne.submissions.filter (fun s =>
        (challengePhaseIds dbOne exChallenge).contains s.challenge_phase &&
          decide (toDate 250 ≤ s.submitted_at))).length ∧
    get_submission_count dbOne 250 1 "weekly" =
      .ok (dbOne.submissions.filter (fun s =>
        (challengePhaseIds dbOne exChallenge).contains s.challenge_phase &&
          decide (toDate (250 - 7 * secondsPerDay) ≤ s.submitted_at))).length ∧
    get_submission_count dbOne 250 1 "monthly" =
      .ok (dbOne.submissions.filter (fun s =>
        (challengePhaseIds dbOne exChallenge).contains s.challenge_phase &&
          decide (toDate (250 - 30 * secondsPerDay) ≤ s.submitted_at))).length :=
  C4_submission_count_window_cutoffs dbOne 250 1 exChallenge rfl

/-- C5: for a fixed data set and a fixed clock the submission counts are
monotone in the window: `daily ≤ weekly ≤ monthly ≤ all`. -/
theorem C5_submission_count_monotone (db : Database) (now : Int) (cpk : Nat)
    (c : Challenge) (h : get_challenge_model db cpk = some c) :
    ∃ a m w d : Nat,
      get_submission_count db now cpk "all" = .ok a ∧
      get_submission_count db now cpk "monthly" = .ok m ∧
      get_submission_count db now cpk "weekly" = .ok w ∧
      get_submission_count db now cpk "daily" = .ok d ∧
      d ≤ w ∧ w ≤ m ∧ m ≤ a := by
  have hsp : (0 : Int) < secondsPerDay := by decide
  refine ⟨_, _, _, _,
    get_submission_count_valid db now cpk c "all" h (by decide),
    get_submission_count_valid db now cpk c "monthly" h (by decide),
    get_submission_count_valid db now cpk c "weekly" h (by decide),
    get_submission_count_valid db now cpk c "daily" h (by decide),
    ?_, ?_, ?_⟩
  · rw [sinceDate_daily, sinceDate_weekly]
    exact length_filter_mono _ (fun s _ hs =>
      submissionCounted_mono_cutoff (toDate_mono (by linarith)) hs)
  · rw [sinceDate_weekly, sinceDate_monthly]
    exact length_filter_mono _ (fun s _ hs =>
      submissionCounted_mono_cutoff (toDate_mono (by linarith)) hs)
  · rw [sinceDate_monthly, sinceDate_all]
    exact length_filter_mono _ (fun s _ hs =>
      submissionCounted_none_of_some hs)

/-- Witness for C5 at a concrete store and clock. -/
theorem C5_submission_count_monotone_witness :
    ∃ a m w d : Nat,
      get_submission_count dbOne 300 1 "all" = .ok a ∧
      get_submission_count dbOne 300 1 "monthly" = .ok m ∧
      get_submission_count dbOne 300 1 "weekly" = .ok w ∧
      get_submission_count dbOne 300 1 "daily" = .ok d ∧
      d ≤ w ∧ w ≤ m ∧ m ≤ a :=
  C5_submission_count_monotone dbOne 300 1 exChallenge rfl

/-- C6: a duration token outside `{all, daily, weekly, monthly}` after
lower-casing is rejected with the 406 "Wrong URL pattern!" response, and every
case-variant of the four tokens is accepted (yields a 200 count when the
challenge resolves). -/
theorem C6_window_token_validation (db : Database) (now : Int) (cpk : Nat)
    (w : String) :
    (validDurations.contains (strLower w) = false →
      get_submission_count db now cpk w = .error 406 "Wrong URL pattern!") ∧
    (validDurations.contains (strLower w) = true →
      ∀ c, get_challenge_model db cpk = some c →
        ∃ n, get_submission_count db now cpk w = .ok n) := by
  constructor
  · intro hv
    unfold get_submission_count
    rw [if_neg (by rw [hv]; simp)]
  · intro hv c h
    exact ⟨_, get_submission_count_valid db now cpk c w h hv⟩

/-- Witness for C6: `bogus` is rejected with 406, `WeEkLy` is accepted. -/
theorem C6_window_token_validation_witness :
    get_submission_count dbOne 0 1 "bogus" = .error 406 "Wrong URL pattern!" ∧
    ∃ n, get_submission_count dbOne 0 1 "WeEkLy" = .ok n :=
  ⟨(C6_window_token_validation dbOne 0 1 "bogus").1 (by decide),
   (C6_window_token_validation dbOne 0 1 "WeEkLy").2 (by decide) exChallenge rfl⟩

/-- C10: the window token is validated before the challenge is resolved — a
bad token yields the 406 response even when the challenge id resolves to
nothing, and the result on that path is the same for every store. -/
theorem C10_window_validated_before_challenge (db : Database) (now : Int)
    (cpk : Nat) (w : String)
    (h1 : validDurations.contains (strLower w) = false)
    (h2 : get_challenge_model db cpk = none) :
    get_submission_count db now cpk w = .error 406 "Wrong URL pattern!" ∧
    ∀ db2 : Database,
      get_submission_count db2 now cpk w = .error 406 "Wrong URL pattern!" := by
  have key : ∀ db2 : Database,
      get_submission_count db2 now cpk w = .error 406 "Wrong URL pattern!" := by
    intro db2
    unfold get_submission_count
    rw [if_neg (by rw [h1]; simp)]
  exact ⟨key db, key⟩

/-- Witness for C10: `bogus` on an empty store (challenge 1 unresolvable). -/
theorem C10_window_validated_before_challenge_witness :
    get_submission_count dbNone 0 1 "bogus" = .error 406 "Wrong URL pattern!" ∧
    ∀ db2 : Database,
      get_submission_count db2 0 1 "bogus" = .error 406 "Wrong URL pattern!" :=
  C10_window_validated_before_challenge dbNone 0 1 "bogus" (by decide) rfl

/-- C1: on a phase where the caller has zero submissions the code indexes
`[0]` into an empty ordered queryset and raises an unhandled `IndexError` —
it crashes instead of returning the `NotFound` outcome the spec requires. -/
theorem C1_empty_phase_crashes_instead_of_not_found :
    get_last_submission_time dbEmpty 1 1 "user" 7 = ApiResponse.crash ∧
    ∀ msg, get_last_submission_time dbEmpty 1 1 "user" 7 ≠
      ApiResponse.error 404 msg := by
  refine ⟨rfl, fun msg h => ?_⟩
  rw [show get_last_submission_time dbEmpty 1 1 "user" 7 = ApiResponse.crash
    from rfl] at h
  exact ApiResponse.noConfusion h

/-- Counterexample to C2 as stated: on a challenge and phase with zero
matching submissions the view does not return the zero-valued summary record
`{submission_count := 0, participant_team_count := 0}`. -/
theorem C2_counterexample_zero_record_not_returned :
    get_challenge_phase_submission_analysis dbEmpty 1 1 ≠
      ApiResponse.ok (AnalysisBody.single ⟨0, 0⟩) := by decide

/-- C2 (amended): with zero matching submissions the serialized row list is
empty, so the view returns the empty list body, not a synthesized summary
row; a single first row is only taken when the data is non-empty. -/
theorem C2_empty_matches_give_empty_body (db : Database) (cpk ppk : Nat)
    (c : Challenge) (p : ChallengePhase)
    (h1 : get_challenge_model db cpk = some c)
    (h2 : get_challenge_phase_model db ppk = some p)
    (h3 : db.submissions.filter (phaseSubmissionMatch db c.id p.id) = []) :
    get_challenge_phase_submission_analysis db cpk ppk =
      ApiResponse.ok (AnalysisBody.rows []) := by
  have key : get_challenge_phase_submission_analysis db cpk ppk =
      match challengePhaseSubmissionAnalysisData
        (db.submissions.filter (phaseSubmissionMatch db c.id p.id)) with
      | [] => ApiResponse.ok (AnalysisBody.rows [])
      | r :: _ => ApiResponse.ok (AnalysisBody.single r) := by
    unfold get_challenge_phase_submission_analysis
    rw [h1, h2]
  rw [key, h3]
  rfl

/-- Witness for the amended C2 at a concrete store. -/
theorem C2_empty_matches_give_empty_body_witness :
    get_challenge_phase_submission_analysis dbEmpty 1 1 =
      ApiResponse.ok (AnalysisBody.rows []) :=
  C2_empty_matches_give_empty_body dbEmpty 1 1 exChallenge exPhase rfl rfl rfl

/-- C7: with at least one matching submission, `get_last_submission_time`
with scope `user` returns the `created_at` field of a matching submission of
maximal `submitted_at` — the creation timestamp of the most-recently-submitted
record. -/
theorem C7_last_submission_time_picks_latest (db : Database)
    (cpk ppk upk : Nat) (c : Challenge) (p : ChallengePhase)
    (h1 : get_challenge_model db cpk = some c)
    (h2 : get_challenge_phase_model db ppk = some p)
    (h3 : db.submissions.filter (userPhaseSubmission db c.id p.id upk) ≠ []) :
    ∃ s, s ∈ db.submissions.filter (userPhaseSubmission db c.id p.id upk) ∧
      (∀ t ∈ db.submissions.filter (userPhaseSubmission db c.id p.id upk),
        t.submitted_at ≤ s.submitted_at) ∧
      get_last_submission_time db cpk ppk "user" upk = .ok s.created_at := by
  have key : get_last_submission_time db cpk ppk "user" upk =
      match orderBySubmittedAtDesc
        (db.submissions.filter (userPhaseSubmission db c.id p.id upk)) with
      | [] => ApiResponse.crash
      | s :: _ => ApiResponse.ok s.created_at := by
    unfold get_last_submission_time
    rw [h1, h2]
    rfl
  rcases hsort : orderBySubmittedAtDesc
      (db.submissions.filter (userPhaseSubmission db c.id p.id upk)) with
    _ | ⟨s, rest⟩
  · exact absurd (orderBySubmittedAtDesc_eq_nil.mp hsort) h3
  · obtain ⟨hmem, hmax⟩ := orderBySubmittedAtDesc_head_max hsort
    exact ⟨s, hmem, hmax, by rw [key, hsort]⟩

/-- Witness for C7 at a concrete store with one submission. -/
theorem C7_last_submission_time_picks_latest_witness :
    ∃ s, s ∈ dbOne.submissions.filter (userPhaseSubmission dbOne 1 1 7) ∧
      (∀ t ∈ dbOne.submissions.filter (userPhaseSubmission dbOne 1 1 7),
        t.submitted_at ≤ s.submitted_at) ∧
      get_last_submission_time dbOne 1 1 "user" 7 = .ok s.created_at :=
  C7_last_submission_time_picks_latest dbOne 1 1 7 exChallenge exPhase rfl rfl
    (by decide)

/-- C8: any scope token other than the literal `user` yields a 404 response
(a defined not-found outcome), for every store and every challenge and phase
argument. -/
theorem C8_non_user_scope_not_found (db : Database) (cpk ppk upk : Nat)
    (scope : String) (h : scope ≠ "user") :
    ∃ msg, get_last_submission_time db cpk ppk scope upk =
      ApiResponse.error 404 msg := by
  have hb : (scope == "user") = false := by simp [h]
  cases hc : get_challenge_model db cpk with
  | none => exact ⟨_, by unfold get_last_submission_time; rw [hc]⟩
  | some c =>
    cases hp : get_challenge_phase_model db ppk with
    | none => exact ⟨_, by unfold get_last_submission_time; rw [hc, hp]⟩
    | some p =>
      exact ⟨"Page not found!", by simp [get_last_submission_time, hc, hp, hb]⟩

/-- Witness for C8 with the scope token `team`. -/
theorem C8_non_user_scope_not_found_witness :
    ∃ msg, get_last_submission_time dbOne 1 1 "team" 7 =
      ApiResponse.error 404 msg :=
  C8_non_user_scope_not_found dbOne 1 1 7 "team" (by decide)

/-- C9: the participant count is the number of (distinct) participant rows
whose team is in the challenge's participant-team set; a participant whose
team is not in that set — e.g. one belonging only to other challenges'
teams — is never in the counted list. -/
theorem C9_participant_count_scoped (db : Database) (cpk : Nat)
    (c : Challenge) (h : get_challenge_model db cpk = some c) :
    get_participant_count db cpk =
      .ok (db.participants.filter
        (fun p => c.participant_teams.contains p.team)).length ∧
    (∀ p, p ∈ db.participants.filter
        (fun p => c.participant_teams.contains p.team) ↔
      p ∈ db.participants ∧ p.team ∈ c.participant_teams) ∧
    (db.participants.Nodup →
      (db.participants.filter
        (fun p => c.participant_teams.contains p.team)).Nodup) := by
  refine ⟨?_, ?_, ?_⟩
  · unfold get_participant_count
    rw [h]
  · intro p
    simp [List.mem_filter, List.elem_iff]
  · intro hnd
    exact hnd.filter _

/-- Witness for C9 at a concrete store: one participant on a challenge team,
one on an unrelated team. -/
theorem C9_participant_count_scoped_witness :
    get_participant_count dbOne 1 =
      .ok (dbOne.participants.filter
        (fun p => exChallenge.participant_teams.contains p.team)).length ∧
    (∀ p, p ∈ dbOne.participants.filter
        (fun p => exChallenge.participant_teams.contains p.team) ↔
      p ∈ dbOne.participants ∧ p.team ∈ exChallenge.participant_teams) ∧
    (dbOne.participants.Nodup →
      (dbOne.participants.filter
        (fun p => exChallenge.participant_teams.contains p.team)).Nodup) :=
  C9_participant_count_scoped dbOne 1 exChallenge rfl

/-- C3: under the primary-key invariant (phase ids are unique), a submission
whose phase belongs to a different challenge satisfies none of the submission
filters the four operations count or aggregate over: the count filter of
`get_submission_count`, the join filter `challenge_phase__challenge` shared
by both analysis views, the phase-and-challenge filter of the analysis views,
and the user filter of `get_last_submission_time`. -/
theorem C3_no_cross_challenge_leakage (db : Database)
    (hids : (db.phases.map (fun q => q.id)).Nodup)
    (c : Challenge) (since : Option Int) (phase_id user_pk : Nat)
    (s : Submission) (p : ChallengePhase)
    (hp : p ∈ db.phases) (hpid : p.id = s.challenge_phase)
    (hne : p.challenge ≠ c.id) :
    submissionCounted (challengePhaseIds db c) since s = false ∧
    phaseInChallenge db c.id s = false ∧
    phaseSubmissionMatch db c.id phase_id s = false ∧
    userPhaseSubmission db c.id phase_id user_pk s = false := by
  have huniq := List.inj_on_of_nodup_map hids
  have hcontains : (challengePhaseIds db c).contains s.challenge_phase = false := by
    by_contra hcon
    rw [Bool.not_eq_false] at hcon
    have hmem : s.challenge_phase ∈ challengePhaseIds db c := List.elem_iff.mp hcon
    unfold challengePhaseIds at hmem
    rcases List.mem_map.mp hmem with ⟨q, hq, hqid⟩
    rcases List.mem_filter.mp hq with ⟨hqmem, hqch⟩
    have heq : q = p := huniq hqmem hp (hqid.trans hpid.symm)
    subst heq
    rw [beq_iff_eq] at hqch
    exact hne hqch
  have hphase : phaseInChallenge db c.id s = false := by
    unfold phaseInChallenge
    cases hfind : db.phases.find? (fun q => q.id == s.challenge_phase) with
    | none => rfl
    | some q =>
      have hqmem := List.mem_of_find?_eq_some hfind
      have hqid : q.id = s.challenge_phase := by
        simpa using List.find?_some hfind
      have heq : q = p := huniq hqmem hp (hqid.trans hpid.symm)
      subst heq
      rw [beq_eq_false_iff_ne]
      exact hne
  refine ⟨?_, hphase, ?_, ?_⟩
  · unfold submissionCounted
    rw [hcontains, Bool.false_and]
  · unfold phaseSubmissionMatch
    rw [hphase, Bool.false_and]
  · unfold userPhaseSubmission
    rw [hphase, Bool.and_false]

/-- Witness for C3: with two challenges, the submission in challenge 2's
phase satisfies none of challenge 1's filters. -/
theorem C3_no_cross_challenge_leakage_witness :
    submissionCounted (challengePhaseIds dbTwo exChallenge) none foreignSub = false ∧
    phaseInChallenge dbTwo exChallenge.id foreignSub = false ∧
    phaseSubmissionMatch dbTwo exChallenge.id 2 foreignSub = false ∧
    userPhaseSubmission dbTwo exChallenge.id 2 7 foreignSub = false :=
  C3_no_cross_challenge_leakage dbTwo (by decide) exChallenge none 2 7
    foreignSub otherPhase (by decide) rfl (by decide)

end Analytics
